import Mathlib

/-!
# Verification of the github-api-read-cache-service core

Shallow embedding of the Go sources of
`adamjeanlaurent/github-api-read-cache-service`:

* `github-client/github-client.go` — upstream client: single and paginated
  requests, rate-limit backoff state machine (`shouldBackoff`,
  `updateBackoffState`, `sendGithubApiRequest`,
  `sendPaginatedGithubApiRequests`, `ForwardRequest`).
* `cache/cache.go` — cache engine: `hydrateCache`, the view sorts
  (`sortBottomViewByCount`, `sortBottomViewByTimestamp`), the read
  operations, and the sync loop's status recording.
* `handlers/handlers.go` — the bottom-N read helper
  (`getBottomNReposHelper`).

Machine integers are modelled as `Int`/`Nat`; timestamps as `Int` epoch
seconds (Go `time.Time` comparisons `Before`/`After` are strict, which the
model preserves).  JSON numbers (`float64` after `encoding/json` decoding)
are modelled as `Int`: every value the code compares comes from GitHub
count fields, which are integral, and `<`/`==` on such doubles agree with
the integer order.  Fallible operations return `Option`/`Except`.
-/

/-! ## JSON values (encoding/json decoding results) -/

/-- A decoded JSON value, as the Go code observes it through type
assertions: `.(string)` succeeds exactly on `str`, `.(float64)` exactly on
`num`.  Other shapes (bool, null, nested object/array) are collapsed into
`other`: the repository never asserts those types. -/
inductive JsonValue where
  | str (s : String)
  | num (n : Int)
  | other
deriving DecidableEq, Repr

/-- `map[string]interface{}` from the Go code, as an association list
(decoded JSON objects have distinct keys). -/
def JsonObject := List (String × JsonValue)
deriving DecidableEq, Repr

/-- `repo["k"].(string)`: key lookup followed by the string type
assertion; `none` when the key is absent or the value is not a string. -/
def JsonObject.getStr (o : JsonObject) (k : String) : Option String :=
  match List.lookup k o with
  | some (JsonValue.str s) => some s
  | _ => none

/-- `repo["k"].(float64)`: key lookup followed by the number type
assertion. -/
def JsonObject.getNum (o : JsonObject) (k : String) : Option Int :=
  match List.lookup k o with
  | some (JsonValue.num n) => some n
  | _ => none

/-! ## strconv: Go `strconv.Atoi` / `strconv.ParseInt`

The model accepts an optional sign followed by a non-empty run of decimal
digits, as Go does.  (Go additionally rejects values outside the 64-bit
range; none of the verified properties depend on inputs of that
magnitude, so the model leaves `Int` unbounded.) -/

/-- Reads a non-empty all-digit character list as a natural number. -/
def parseDigits : List Char → Nat → Option Nat
  | [], acc => some acc
  | c :: rest, acc =>
    if c.isDigit then parseDigits rest (acc * 10 + (c.toNat - 48)) else none

/-- Digit-run part of `strconv.Atoi`: empty input is an error. -/
def parseIntCore (cs : List Char) : Option Nat :=
  if cs.isEmpty then none else parseDigits cs 0

/-- Go `strconv.Atoi` (and `strconv.ParseInt _ 10 64` for the reset
header): optional `+`/`-` sign, then at least one digit. -/
def parseInt (s : String) : Option Int :=
  match s.data with
  | '-' :: rest => (parseIntCore rest).map (fun n => -(n : Int))
  | '+' :: rest => (parseIntCore rest).map (fun n => (n : Int))
  | cs => (parseIntCore cs).map (fun n => (n : Int))

/-! ## github-client: backoff state machine -/

/-- The mutable backoff fields of `githubClient`
(`github-client/github-client.go` lines 38,40): `inBackoff` and
`backoffResetTime` (epoch seconds; the Go code stores a UTC
`time.Time`). -/
structure BackoffState where
  inBackoff : Bool
  backoffResetTime : Int
deriving DecidableEq, Repr

/-- The two rate-limit response headers, as raw strings;
`http.Header.Get` yields `""` for an absent header, which `parseInt`
rejects, so absence needs no separate case. -/
structure RateHeaders where
  remaining : String
  reset : String
deriving DecidableEq, Repr

/-- `githubClient.updateBackoffState` (github-client.go lines 261-293):
parse `x-ratelimit-remaining`; on parse failure log and return.  If the
remaining count is 0, parse `x-ratelimit-reset` (epoch seconds; parse
failure again logs and returns) and enter backoff with
`backoffResetTime` set to the parsed reset time.  A non-zero remaining
count leaves the state untouched (backoff is only ever cleared by
`shouldBackoff`). -/
def updateBackoffState (hdrs : RateHeaders) (st : BackoffState) : BackoffState :=
  match parseInt hdrs.remaining with
  | none => st
  | some remaining =>
    if remaining = 0 then
      match parseInt hdrs.reset with
      | none => st
      | some resetTime => { inBackoff := true, backoffResetTime := resetTime }
    else st

/-- `githubClient.shouldBackoff` (github-client.go lines 228-257), given
the current clock reading `now` (`time.Now().UTC()`).  Returns the
fail-fast decision together with the updated state: not in backoff ⇒
proceed; in backoff with `now` strictly after the reset time
(`now.After(backoffResetTime)`) ⇒ clear the flag and proceed; otherwise
fail fast. -/
def shouldBackoff (now : Int) (st : BackoffState) : Bool × BackoffState :=
  if !st.inBackoff then (false, st)
  else if now > st.backoffResetTime then (false, { st with inBackoff := false })
  else (true, st)

/-! ## github-client: request paths

Network behaviour is supplied as data: the response the network would
return for the single request, or the list of responses it would return
for successive pages.  Each embedded entry point also reports which
requests actually went out on the wire, so "makes no network call" is a
statement about the result, not about the model's bookkeeping. -/

/-- What the network returns for one HTTP request: a transport error
(`httpClient.Do` fails), or a response with a status code, rate-limit
headers, and a decoded body (`none` models a read/unmarshal failure). -/
inductive HttpReply (β : Type) where
  | transportErr
  | reply (status : Int) (hdrs : RateHeaders) (body : Option β)
deriving DecidableEq, Repr

/-- Result triple of the Go client calls: `(value, error-message?,
statusCode)`.  `value = none` together with `err = some _` is the error
shape; the Go functions return `nil` data on every error path. -/
structure ApiResult (α : Type) where
  value : Option α
  err : Option String
  status : Int
deriving DecidableEq, Repr

/-- Outcome of one `sendGithubApiRequest` call.  `panicked = true` marks
the Go runtime panic the source hits on a transport error: at
github-client.go lines 145-147 a failed `httpClient.Do` leaves `resp`
nil, and the `return nil, err, resp.StatusCode` statement dereferences
that nil response, so the call never returns a value.  `result` is
`some` exactly when the call returns (`panicked = false`);
`networkCall` records whether a request went out on the wire before the
call returned or panicked. -/
structure SingleOutcome where
  result : Option (ApiResult JsonObject)
  state : BackoffState
  networkCall : Bool
  panicked : Bool
deriving DecidableEq, Repr

/-- `githubClient.sendGithubApiRequest` (github-client.go lines
131-169).  Note the order on this path: `updateBackoffState` runs on
every received response, before the status-code check; and a transport
error is a nil-response dereference — a panic, not an error return. -/
def sendGithubApiRequest (now : Int) (st : BackoffState)
    (net : HttpReply JsonObject) : SingleOutcome :=
  let bo := shouldBackoff now st
  if bo.1 then
    ⟨some ⟨none, some "Rate Limited, in backoff, try again later", 429⟩,
      bo.2, false, false⟩
  else
    match net with
    | HttpReply.transportErr => ⟨none, bo.2, true, true⟩
    | HttpReply.reply status hdrs body =>
      let st2 := updateBackoffState hdrs bo.2
      if status ≠ 200 then
        ⟨some ⟨none, some "Request failed", status⟩, st2, true, false⟩
      else
        match body with
        | none =>
          ⟨some ⟨none, some "error unmarshalling JSON", 500⟩, st2, true, false⟩
        | some o => ⟨some ⟨some o, none, status⟩, st2, true, false⟩

/-- Outcome of the pagination loop: the result triple (with the flattened
item list in `value`), the final backoff state, the page numbers
requested over the network in order, and whether the loop panicked.
`panicked = true` marks the same nil-response dereference as in the
single path (github-client.go lines 96-98): on a transport error the
source evaluates `resp.StatusCode` on the nil `resp` and panics, so
nothing is returned (`result = none`).  `result = none` with
`panicked = false` marks that the supplied response list ran out before
the loop finished — callers of the lemmas always supply enough pages. -/
structure PagOutcome where
  result : Option (ApiResult (List JsonObject))
  state : BackoffState
  issued : List Nat
  panicked : Bool
deriving DecidableEq, Repr

/-- Body of the `for` loop of
`githubClient.sendPaginatedGithubApiRequests` (github-client.go lines
80-127), consuming the network's successive page replies.  Mirrors the
source order: a transport error panics on the nil response; the
status-code check precedes `updateBackoffState`, so a non-200 page
reply returns without its headers being inspected; a 200 reply updates
the backoff state, then an empty item list stops the loop and a
non-empty one is appended before requesting the next page. -/
def sendPaginatedLoop :
    List (HttpReply (List JsonObject)) → Nat → List JsonObject →
    BackoffState → List Nat → PagOutcome
  | [], _, _, st, issued => ⟨none, st, issued, false⟩
  | p :: rest, pageNum, acc, st, issued =>
    let issued' := issued ++ [pageNum]
    match p with
    | HttpReply.transportErr => ⟨none, st, issued', true⟩
    | HttpReply.reply status hdrs body =>
      if status ≠ 200 then
        ⟨some ⟨none, some "Request failed", status⟩, st, issued', false⟩
      else
        let st2 := updateBackoffState hdrs st
        match body with
        | none =>
          ⟨some ⟨none, some "error unmarshalling JSON", 500⟩, st2, issued',
            false⟩
        | some items =>
          if items.isEmpty then
            ⟨some ⟨some acc, none, 200⟩, st2, issued', false⟩
          else sendPaginatedLoop rest (pageNum + 1) (acc ++ items) st2 issued'

/-- `githubClient.sendPaginatedGithubApiRequests` (github-client.go lines
75-128): one backoff check up front, then the page loop starting at page
1 with an empty accumulator. -/
def sendPaginatedGithubApiRequests (now : Int) (st : BackoffState)
    (pages : List (HttpReply (List JsonObject))) : PagOutcome :=
  let bo := shouldBackoff now st
  if bo.1 then
    ⟨some ⟨none, some "Rate Limited, in backoff, try again later", 429⟩,
      bo.2, [], false⟩
  else sendPaginatedLoop pages 1 [] bo.2 []

/-- Observable outcome of `githubClient.ForwardRequest`
(github-client.go lines 172-225): the status written to the caller and
whether the proxy request was sent upstream. -/
structure ForwardOutcome where
  writtenStatus : Int
  state : BackoffState
  networkCall : Bool
deriving DecidableEq, Repr

/-- `githubClient.ForwardRequest`: backoff check (fail fast with 429 and
no upstream call), then the proxied request; on a received response the
backoff state is updated from its headers and the upstream status is
written through unchanged, whatever it is. -/
def forwardRequest (now : Int) (st : BackoffState)
    (net : HttpReply Unit) : ForwardOutcome :=
  let bo := shouldBackoff now st
  if bo.1 then ⟨429, bo.2, false⟩
  else
    match net with
    | HttpReply.transportErr => ⟨502, bo.2, true⟩
    | HttpReply.reply status hdrs _ => ⟨status, updateBackoffState hdrs bo.2, true⟩

/-! ## cache: view construction and hydration -/

/-- A `cache.Tuple` of a numeric view: `(name, count)` with the count a
JSON number (see the header note on `float64` vs `Int`). -/
def CountTuple := String × Int
deriving DecidableEq, Repr

/-- A `cache.Tuple` of the last-updated view: `(name, RFC3339 string)`. -/
def TimeTuple := String × String
deriving DecidableEq, Repr

/-- Lexicographic order on character sequences by code point, which for
Go's `nameA < nameB` on UTF-8 encoded strings coincides with the
byte-wise comparison Go performs. -/
def charListLt : List Char → List Char → Bool
  | [], [] => false
  | [], _ :: _ => true
  | _ :: _, [] => false
  | a :: as, b :: bs =>
    if a.toNat < b.toNat then true
    else if b.toNat < a.toNat then false
    else charListLt as bs

/-- Go string comparison `a < b`. -/
def goStringLt (a b : String) : Bool := charListLt a.data b.data

/-- Boolean form of the `sort.Slice` comparator of
`sortBottomViewByCount` (cache/cache.go lines 177-191), completed to its
reflexive closure: `countLexLe a b` is `¬ less(b, a)` for the source's
`less` — count strictly below, or equal counts with the name not
strictly above.  `sort.Slice` guarantees exactly that adjacent output
pairs satisfy `¬ less(next, cur)`. -/
def countLexLe (a b : CountTuple) : Bool :=
  decide (a.2 < b.2) || (decide (a.2 = b.2) && !(goStringLt b.1 a.1))

/-- The comparator as a binary relation: tuple order ascending by count,
ties broken by name ascending. -/
def countLexRel (a b : CountTuple) : Prop := countLexLe a b = true

instance : DecidableRel countLexRel := fun a b =>
  Bool.decEq (countLexLe a b) true

/-- `sortBottomViewByCount` (cache/cache.go lines 177-191).  Go's
`sort.Slice` is an unstable sort, but its postcondition — a permutation
of the input whose adjacent pairs satisfy `¬ less(next, cur)`, i.e.
sorted under `countLexRel` — determines the output uniquely here, since
tuples equivalent under the comparator are equal as values
(`countLexRel` is antisymmetric); `insertionSort` by the same comparator
computes that unique sorted permutation. -/
def sortBottomViewByCount (tuples : List CountTuple) : List CountTuple :=
  List.insertionSort countLexRel tuples

/-- `sortBottomViewByTimestamp` (cache/cache.go lines 193-200),
parameterised by the timestamp interpretation `tp` (Go parses RFC3339
into `time.Time`; the model abstracts the stdlib parser as a function
into epoch seconds, with parse failures already folded in — the Go code
discards the parse error and compares the zero time).  The comparator
compares parsed times only, so Go's unstable sort may order
equal-timestamp entries arbitrarily; no verified claim depends on that
order, and the model fixes the `insertionSort` order. -/
def sortBottomViewByTimestamp (tp : String → Int) (tuples : List TimeTuple) :
    List TimeTuple :=
  List.insertionSort (fun a b => tp a.2 ≤ tp b.2) tuples

/-- The five fields extracted from each repository object in
`hydrateCache`'s loop (cache/cache.go lines 122-153), with the name
already prefixed `Netflix/`. -/
structure RepoFields where
  name : String
  updated : String
  openIssues : Int
  stars : Int
  forks : Int
deriving DecidableEq, Repr

/-- One iteration of the extraction loop of `hydrateCache` (cache.go
lines 122-153): each missing or wrongly-typed field aborts with the
source's error message (surfaced as a 500 by the caller). -/
def extractRepo (repo : JsonObject) : Except String RepoFields :=
  match repo.getStr "name" with
  | none => Except.error "Missing repository name"
  | some name =>
    match repo.getStr "updated_at" with
    | none => Except.error "Missing Updated time for repository"
    | some updated =>
      match repo.getNum "open_issues_count" with
      | none => Except.error "Missing issue count for repository"
      | some openIssues =>
        match repo.getNum "stargazers_count" with
        | none => Except.error "Missing star count for repository"
        | some stars =>
          match repo.getNum "forks_count" with
          | none => Except.error "Missing forks count for repository"
          | some forks =>
            Except.ok ⟨"Netflix/" ++ name, updated, openIssues, stars, forks⟩

/-- The extraction loop over all repositories, aborting on the first
failing repository, in order — exactly the `for _, repo :=
range netflixOrgRepos` loop. -/
def extractRepos : List JsonObject → Except String (List RepoFields)
  | [] => Except.ok []
  | r :: rs =>
    match extractRepo r with
    | Except.error e => Except.error e
    | Except.ok f =>
      match extractRepos rs with
      | Except.error e => Except.error e
      | Except.ok fs => Except.ok (f :: fs)

/-- `cacheData` (cache/cache.go lines 30-38): the snapshot installed
wholesale by a successful hydration. -/
structure CacheData where
  netflixOrganization : JsonObject
  netflixOrganizationMembers : List JsonObject
  netflixOrganizationRepos : List JsonObject
  viewBottomNetflixReposByForks : List CountTuple
  viewBottomNetflixReposByUpdateTime : List TimeTuple
  viewBottomNetflixReposByOpenIssues : List CountTuple
  viewBottomNetflixReposByStars : List CountTuple
deriving DecidableEq, Repr

/-- The view-computation half of `hydrateCache` (cache.go lines
116-170): extract the fields of every repo, build the four tuple lists,
sort them, and assemble the complete `cacheData` record from the one
(org, members, repos) triple.  `Except.error` is the abort with the
decode message (status 500 at the caller). -/
def buildCacheData (tp : String → Int) (org : JsonObject)
    (members repos : List JsonObject) : Except String CacheData :=
  match extractRepos repos with
  | Except.error e => Except.error e
  | Except.ok fields =>
    Except.ok
      { netflixOrganization := org
        netflixOrganizationMembers := members
        netflixOrganizationRepos := repos
        viewBottomNetflixReposByForks :=
          sortBottomViewByCount (fields.map fun f => (f.name, f.forks))
        viewBottomNetflixReposByUpdateTime :=
          sortBottomViewByTimestamp tp (fields.map fun f => (f.name, f.updated))
        viewBottomNetflixReposByOpenIssues :=
          sortBottomViewByCount (fields.map fun f => (f.name, f.openIssues))
        viewBottomNetflixReposByStars :=
          sortBottomViewByCount (fields.map fun f => (f.name, f.stars)) }

/-- Result of one upstream fetch as `hydrateCache` receives it:
`(value, error, statusCode)` with exactly one of value/error present. -/
inductive FetchResult (α : Type) where
  | ok (val : α) (status : Int)
  | err (msg : String) (status : Int)
deriving DecidableEq, Repr

/-- The three fetches one hydration attempt performs, pre-recorded as
data (the Go code obtains them through `githubClient`); the attempt
consults them in source order and reports which it actually performed. -/
structure UpstreamResults where
  members : FetchResult (List JsonObject)
  repos : FetchResult (List JsonObject)
  org : FetchResult JsonObject
deriving DecidableEq, Repr

/-- What one hydration attempt produced: the returned `(statusCode,
error)` pair, the snapshot pointer after the attempt, and the names of
the fetches performed, in order. -/
structure HydrateOutcome where
  status : Int
  err : Option String
  data : Option CacheData
  fetched : List String
deriving DecidableEq, Repr

/-- `cache.hydrateCache` (cache/cache.go lines 99-175): fetch members,
repos, organization in that order, returning the failing fetch's status
and wrapped error immediately on the first failure with the previous
snapshot `old` untouched; then build the views (a decode failure aborts
with 500, snapshot untouched); finally install the complete new
`cacheData` under the write lock and return 200.  The single
`c.lock.Lock() … c.lock.Unlock()` critical section around the
installation (lines 160-172) is modelled by the snapshot being replaced
in one step, as a whole. -/
def hydrateCache (tp : String → Int) (api : UpstreamResults)
    (old : Option CacheData) : HydrateOutcome :=
  match api.members with
  | FetchResult.err m s =>
    ⟨s, some ("Failed to fetch netflix organization members: " ++ m), old, ["members"]⟩
  | FetchResult.ok members _ =>
    match api.repos with
    | FetchResult.err m s =>
      ⟨s, some ("Failed to fetch netflix organization repositories: " ++ m), old,
        ["members", "repos"]⟩
    | FetchResult.ok repos _ =>
      match api.org with
      | FetchResult.err m s =>
        ⟨s, some ("Failed to fetch netflix organization: " ++ m), old,
          ["members", "repos", "org"]⟩
      | FetchResult.ok org _ =>
        match buildCacheData tp org members repos with
        | Except.error e => ⟨500, some e, old, ["members", "repos", "org"]⟩
        | Except.ok d => ⟨200, none, some d, ["members", "repos", "org"]⟩

/-- The observable fields of the `cache` struct (cache/cache.go lines
40-48): the snapshot pointer and `lastCacheSyncStatus`. -/
structure CacheState where
  data : Option CacheData
  lastCacheSyncStatus : Int
deriving DecidableEq, Repr

/-- `NewCache` (cache/cache.go lines 50-52): the data pointer starts
`nil` and the sync status starts `http.StatusOK`. -/
def newCache : CacheState :=
  { data := none, lastCacheSyncStatus := 200 }

/-- One iteration of the sync paths in `StartSyncLoop` (cache/cache.go
lines 62-63 and 82-90): run `hydrateCache` and store the returned status
code into `lastCacheSyncStatus`, on success and on failure alike. -/
def syncTick (tp : String → Int) (st : CacheState) (api : UpstreamResults) :
    CacheState :=
  let h := hydrateCache tp api st.data
  { data := h.data, lastCacheSyncStatus := h.status }

/-- A run of successive hydration attempts (startup retries and ticker
iterations) from a starting state. -/
def runTicks (tp : String → Int) (st : CacheState) :
    List UpstreamResults → CacheState
  | [] => st
  | api :: rest => runTicks tp (syncTick tp st api) rest

/-- Modelled from the spec: the forced hydration entry point
(`HydrateNow` / `cache.HydrateCache`, invoked by
`handlers.forceCacheUpdateOnCacheMiss`) is declared and called in the
sources but its body is not among them.  Per the spec it is "a single
synchronous hydration attempt identical to" the sync-loop attempt, and
`SyncStatus` is "the last HTTP-equivalent status code observed from the
most recent hydration attempt (success or failure)", so the model
records the attempt's status exactly as the sync loop does and returns
the `(status, error)` pair to the caller. -/
def hydrateNow (tp : String → Int) (st : CacheState) (api : UpstreamResults) :
    (Int × Option String) × CacheState :=
  let h := hydrateCache tp api st.data
  ((h.status, h.err), { data := h.data, lastCacheSyncStatus := h.status })

/-! ## cache: read operations

Every getter in cache/cache.go (lines 202-249) dereferences `c.data`
with no nil check; when `c.data` is nil that dereference is a runtime
panic in Go.  The model makes the dereference explicit. -/

/-- Result of a read operation: either the value, or the nil-pointer
dereference the Go getter hits when no hydration has installed data. -/
inductive ReadResult (α : Type) where
  | nilDeref
  | ok (val : α)
deriving DecidableEq, Repr

/-- `cache.GetNetflixOrganization` (cache.go lines 202-207). -/
def getNetflixOrganization (s : CacheState) : ReadResult JsonObject :=
  match s.data with
  | none => ReadResult.nilDeref
  | some d => ReadResult.ok d.netflixOrganization

/-- `cache.GetNetflixOrganizationMembers` (cache.go lines 209-214). -/
def getNetflixOrganizationMembers (s : CacheState) :
    ReadResult (List JsonObject) :=
  match s.data with
  | none => ReadResult.nilDeref
  | some d => ReadResult.ok d.netflixOrganizationMembers

/-- `cache.GetNetflixOrganizationRepos` (cache.go lines 216-221). -/
def getNetflixOrganizationRepos (s : CacheState) :
    ReadResult (List JsonObject) :=
  match s.data with
  | none => ReadResult.nilDeref
  | some d => ReadResult.ok d.netflixOrganizationRepos

/-- `cache.GetBottomNetflixReposByForks` (cache.go lines 223-228). -/
def getBottomNetflixReposByForks (s : CacheState) : ReadResult (List CountTuple) :=
  match s.data with
  | none => ReadResult.nilDeref
  | some d => ReadResult.ok d.viewBottomNetflixReposByForks

/-- `cache.GetBottomNetflixReposByUpdateTime` (cache.go lines 230-235). -/
def getBottomNetflixReposByUpdateTime (s : CacheState) :
    ReadResult (List TimeTuple) :=
  match s.data with
  | none => ReadResult.nilDeref
  | some d => ReadResult.ok d.viewBottomNetflixReposByUpdateTime

/-- `cache.GetBottomNetflixReposByOpenIssues` (cache.go lines 237-242). -/
def getBottomNetflixReposByOpenIssues (s : CacheState) :
    ReadResult (List CountTuple) :=
  match s.data with
  | none => ReadResult.nilDeref
  | some d => ReadResult.ok d.viewBottomNetflixReposByOpenIssues

/-- `cache.GetBottomNetflixReposByStars` (cache.go lines 244-249). -/
def getBottomNetflixReposByStars (s : CacheState) : ReadResult (List CountTuple) :=
  match s.data with
  | none => ReadResult.nilDeref
  | some d => ReadResult.ok d.viewBottomNetflixReposByStars

/-! ## handlers: the bottom-N helper -/

/-- What `getBottomNReposHelper` writes back: an `http.Error` with a
status and message, or the JSON-encoded slice of the view. -/
inductive HandlerResult (α : Type) where
  | httpError (status : Int) (msg : String)
  | body (entries : List α)
deriving DecidableEq, Repr

/-- `httpHandlers.getBottomNReposHelper` (handlers/handlers.go lines
207-229): `strconv.Atoi` the path value `n` (parse failure ⇒ 400 "n must
be an integer"); reject `n <= 0` with 400 "n must be a positive
integer"; clamp `n` to the view length; respond with
`netflixRepos[len(netflixRepos)-n:]` — the last `n` entries of the
view. -/
def getBottomNReposHelper (nRaw : String) (netflixRepos : List α) :
    HandlerResult α :=
  match parseInt nRaw with
  | none => HandlerResult.httpError 400 "n must be an integer"
  | some n =>
    if n ≤ 0 then HandlerResult.httpError 400 "n must be a positive integer"
    else
      let nClamped := min n.toNat netflixRepos.length
      HandlerResult.body (netflixRepos.drop (netflixRepos.length - nClamped))

/-- Whether a handler result is the caller-input rejection: a 400
`http.Error`, carrying no view entries. -/
def HandlerResult.isBadRequest : HandlerResult α → Bool
  | HandlerResult.httpError 400 _ => true
  | _ => false

/-! ## Order-theoretic facts about the count comparator -/

/-- No character sequence is strictly below itself. -/
theorem charListLt_irrefl : ∀ l, charListLt l l = false
  | [] => rfl
  | a :: as => by
    unfold charListLt
    rw [if_neg (Nat.lt_irrefl _), if_neg (Nat.lt_irrefl _)]
    exact charListLt_irrefl as

/-- Strict character-sequence order is asymmetric. -/
theorem charListLt_asymm : ∀ a b, charListLt a b = true → charListLt b a = false
  | [], [], h => by simp [charListLt]
  | [], _ :: _, _ => by simp [charListLt]
  | _ :: _, [], h => by simp [charListLt] at h
  | a :: as, b :: bs, h => by
    by_cases h1 : a.toNat < b.toNat
    · simp [charListLt, h1, Nat.lt_asymm h1]
    · by_cases h2 : b.toNat < a.toNat
      · simp [charListLt, h1, h2] at h
      · have hrec := charListLt_asymm as bs (by simpa [charListLt, h1, h2] using h)
        simp [charListLt, h1, h2, hrec]

/-- The complement of strict character-sequence order is transitive. -/
theorem charListLt_false_trans :
    ∀ a b c, charListLt b a = false → charListLt c b = false →
      charListLt c a = false
  | [], b, c, _, _ => by cases c <;> simp [charListLt]
  | _ :: _, [], _, h1, _ => by simp [charListLt] at h1
  | _ :: _, _ :: _, [], _, h2 => by simp [charListLt] at h2
  | x :: xs, y :: ys, z :: zs, h1, h2 => by
    by_cases hyx : y.toNat < x.toNat
    · simp [charListLt, hyx] at h1
    · by_cases hzy : z.toNat < y.toNat
      · simp [charListLt, hzy] at h2
      · by_cases hzx : z.toNat < x.toNat
        · omega
        · by_cases hxz : x.toNat < z.toNat
          · simp [charListLt, hzx, hxz]
          · have hxy : ¬ x.toNat < y.toNat := by omega
            have hyz : ¬ y.toNat < z.toNat := by omega
            have h1' : charListLt ys xs = false := by
              simpa [charListLt, hyx, hxy] using h1
            have h2' : charListLt zs ys = false := by
              simpa [charListLt, hzy, hyz] using h2
            simpa [charListLt, hzx, hxz] using
              charListLt_false_trans xs ys zs h1' h2'

/-- Two character sequences neither of which is below the other are
equal. -/
theorem charListLt_false_antisymm :
    ∀ a b, charListLt a b = false → charListLt b a = false → a = b
  | [], [], _, _ => rfl
  | [], _ :: _, h1, _ => by simp [charListLt] at h1
  | _ :: _, [], _, h2 => by simp [charListLt] at h2
  | a :: as, b :: bs, h1, h2 => by
    by_cases hab : a.toNat < b.toNat
    · simp [charListLt, hab] at h1
    · by_cases hba : b.toNat < a.toNat
      · simp [charListLt, hba] at h2
      · have h1' : charListLt as bs = false := by
          simpa [charListLt, hab, hba] using h1
        have h2' : charListLt bs as = false := by
          simpa [charListLt, hba, hab] using h2
        have hn : a.toNat = b.toNat := by omega
        have hchar : a = b := Char.ext (UInt32.toNat.inj hn)
        rw [hchar, charListLt_false_antisymm as bs h1' h2']

/-- Unfolded characterisation of the completed comparator. -/
theorem countLexLe_eq_true (a b : CountTuple) :
    countLexLe a b = true ↔
      a.2 < b.2 ∨ (a.2 = b.2 ∧ goStringLt b.1 a.1 = false) := by
  simp [countLexLe, Bool.or_eq_true, Bool.and_eq_true, decide_eq_true_eq,
    Bool.not_eq_true']

instance : IsTrans CountTuple countLexRel :=
  ⟨by
    intro a b c hab hbc
    unfold countLexRel at *
    rw [countLexLe_eq_true] at *
    rcases hab with hab | ⟨hab, hab'⟩ <;> rcases hbc with hbc | ⟨hbc, hbc'⟩
    · exact Or.inl (hab.trans hbc)
    · exact Or.inl (hbc ▸ hab)
    · exact Or.inl (hab ▸ hbc)
    · exact Or.inr ⟨hab.trans hbc,
        charListLt_false_trans a.1.data b.1.data c.1.data hab' hbc'⟩⟩

instance : IsTotal CountTuple countLexRel :=
  ⟨by
    intro a b
    unfold countLexRel
    rw [countLexLe_eq_true, countLexLe_eq_true]
    rcases lt_trichotomy a.2 b.2 with h | h | h
    · exact Or.inl (Or.inl h)
    · by_cases hn : goStringLt b.1 a.1 = true
      · exact Or.inr (Or.inr ⟨h.symm,
          charListLt_asymm b.1.data a.1.data hn⟩)
      · exact Or.inl (Or.inr ⟨h, Bool.eq_false_iff.mpr hn⟩)
    · exact Or.inr (Or.inl h)⟩

instance : IsAntisymm CountTuple countLexRel :=
  ⟨by
    intro a b hab hba
    unfold countLexRel at *
    rw [countLexLe_eq_true] at hab hba
    rcases hab with hab | ⟨hab, hab'⟩ <;> rcases hba with hba | ⟨hba, hba'⟩ <;>
      try omega
    have hname : a.1 = b.1 := by
      have hdata := charListLt_false_antisymm a.1.data b.1.data hba' hab'
      have := congrArg String.mk hdata
      simpa using this
    have : a = b := Prod.ext hname hab
    exact this⟩

/-- C3: for every input list of `(name, count)` pairs,
`sortBottomViewByCount` produces a list ascending by count with ties
broken by name ascending (`countLexRel`, the completed source
comparator), the output is a permutation of the input, and the output is
identical for every permutation of the input. -/
theorem claim_C3_count_sort_sorted_and_deterministic :
    ∀ (l l' : List CountTuple),
      List.Sorted countLexRel (sortBottomViewByCount l) ∧
      List.Perm (sortBottomViewByCount l) l ∧
      (List.Perm l l' → sortBottomViewByCount l = sortBottomViewByCount l') := by
  intro l l'
  refine ⟨List.sorted_insertionSort countLexRel l,
    List.perm_insertionSort countLexRel l, ?_⟩
  intro hp
  exact List.eq_of_perm_of_sorted
    ((List.perm_insertionSort _ l).trans
      (hp.trans (List.perm_insertionSort _ l').symm))
    (List.sorted_insertionSort _ _) (List.sorted_insertionSort _ _)

/-- Witness for C3 at the spec's example: `[{a,5},{b,5},{c,2}]` sorts to
`[c(2), a(5), b(5)]`, and a reordered input sorts identically. -/
theorem claim_C3_witness :
    List.Perm ([("Netflix/a", 5), ("Netflix/b", 5), ("Netflix/c", 2)] :
        List CountTuple)
      [("Netflix/c", 2), ("Netflix/b", 5), ("Netflix/a", 5)] ∧
    sortBottomViewByCount
        [("Netflix/a", 5), ("Netflix/b", 5), ("Netflix/c", 2)] =
      sortBottomViewByCount
        [("Netflix/c", 2), ("Netflix/b", 5), ("Netflix/a", 5)] ∧
    sortBottomViewByCount
        [("Netflix/a", 5), ("Netflix/b", 5), ("Netflix/c", 2)] =
      [("Netflix/c", 2), ("Netflix/a", 5), ("Netflix/b", 5)] :=
  ⟨by decide,
    (claim_C3_count_sort_sorted_and_deterministic
      [("Netflix/a", 5), ("Netflix/b", 5), ("Netflix/c", 2)]
      [("Netflix/c", 2), ("Netflix/b", 5), ("Netflix/a", 5)]).2.2 (by decide),
    by decide⟩

/-! ## Claims about the bottom-N handler -/

/-- On an unparseable or non-positive `n`, the helper rejects with a 400
before touching the view's contents. -/
theorem getBottomNReposHelper_badRequest {α : Type} (v : List α) (nRaw : String)
    (h : parseInt nRaw = none ∨ ∃ k, parseInt nRaw = some k ∧ k ≤ 0) :
    (getBottomNReposHelper nRaw v).isBadRequest = true := by
  rcases h with h | ⟨k, hk, hk0⟩
  · simp [getBottomNReposHelper, h, HandlerResult.isBadRequest]
  · simp [getBottomNReposHelper, hk, hk0, HandlerResult.isBadRequest]

/-- C8: for every bottom-N request whose `n` fails to parse as an
integer or is not strictly positive, `getBottomNReposHelper` rejects
with a 400 bad-request carrying no view entries — a caller input error,
not a cache error — uniformly for the four views (forks, last-updated,
open-issues, stars) of any cached snapshot. -/
theorem claim_C8_bottomN_input_validation :
    ∀ (d : CacheData) (nRaw : String),
      (parseInt nRaw = none ∨ ∃ k, parseInt nRaw = some k ∧ k ≤ 0) →
      (getBottomNReposHelper nRaw d.viewBottomNetflixReposByForks).isBadRequest
          = true ∧
      (getBottomNReposHelper nRaw
          d.viewBottomNetflixReposByUpdateTime).isBadRequest = true ∧
      (getBottomNReposHelper nRaw
          d.viewBottomNetflixReposByOpenIssues).isBadRequest = true ∧
      (getBottomNReposHelper nRaw d.viewBottomNetflixReposByStars).isBadRequest
          = true := by
  intro d nRaw h
  exact ⟨getBottomNReposHelper_badRequest _ _ h,
    getBottomNReposHelper_badRequest _ _ h,
    getBottomNReposHelper_badRequest _ _ h,
    getBottomNReposHelper_badRequest _ _ h⟩

/-- Witness for C8 at `n = "0"` (parseable but not positive) on a
concrete snapshot. -/
theorem claim_C8_witness :
    (parseInt "0" = none ∨ ∃ k, parseInt "0" = some k ∧ k ≤ 0) ∧
    (getBottomNReposHelper "0"
        (CacheData.mk [] [] [] [("Netflix/a", 1)] [("Netflix/a", "t")]
          [("Netflix/a", 2)] [("Netflix/a", 3)]).viewBottomNetflixReposByForks
      ).isBadRequest = true :=
  ⟨Or.inr ⟨0, by decide, by decide⟩,
    (claim_C8_bottomN_input_validation
      (CacheData.mk [] [] [] [("Netflix/a", 1)] [("Netflix/a", "t")]
        [("Netflix/a", 2)] [("Netflix/a", 3)]) "0"
      (Or.inr ⟨0, by decide, by decide⟩)).1⟩

/-- C1 as stated is false: on the ascending forks view
`[c(2), a(5)]` with `n = 1`, the helper returns the last entry
`a(5)` — the highest-ranked — not the claimed lowest-ranked prefix
`[c(2)]`. -/
theorem claim_C1_counterexample :
    getBottomNReposHelper "1" ([("Netflix/c", 2), ("Netflix/a", 5)] :
        List CountTuple) = HandlerResult.body [("Netflix/a", 5)] ∧
    ([("Netflix/c", 2), ("Netflix/a", 5)] : List CountTuple).take
        (min 1 ([("Netflix/c", 2), ("Netflix/a", 5)] :
          List CountTuple).length) = [("Netflix/c", 2)] ∧
    getBottomNReposHelper "1" ([("Netflix/c", 2), ("Netflix/a", 5)] :
        List CountTuple) ≠
      HandlerResult.body (([("Netflix/c", 2), ("Netflix/a", 5)] :
        List CountTuple).take
        (min 1 ([("Netflix/c", 2), ("Netflix/a", 5)] :
          List CountTuple).length)) := by
  decide

/-- C1 amended: for every view and every positive parsed `n`, the
bottom-N read returns exactly `min n (length view)` entries forming the
contiguous ascending-ordered SUFFIX of the view's full ranking — the
`min n (length view)` highest-ranked entries, preserving the view's
ascending order (the README: "return the last N values in the
corresponding sorted array"). -/
theorem claim_C1_amended_bottomN_suffix :
    ∀ (view : List CountTuple) (nRaw : String) (n : Int),
      parseInt nRaw = some n → 0 < n →
      getBottomNReposHelper nRaw view =
        HandlerResult.body
          (view.drop (view.length - min n.toNat view.length)) ∧
      (view.drop (view.length - min n.toNat view.length)).length =
        min n.toNat view.length ∧
      (view.drop (view.length - min n.toNat view.length)) <:+ view ∧
      (List.Sorted countLexRel view →
        List.Sorted countLexRel
          (view.drop (view.length - min n.toNat view.length))) := by
  intro view nRaw n hp hn
  refine ⟨?_, ?_, List.drop_suffix _ _, ?_⟩
  · simp only [getBottomNReposHelper, hp]
    rw [if_neg (by omega)]
  · rw [List.length_drop]
    have := Nat.min_le_right n.toNat view.length
    omega
  · intro hs
    exact List.Pairwise.sublist (List.drop_sublist _ _) hs

/-- Witness for C1's amended theorem at the counterexample's view. -/
theorem claim_C1_amended_witness :
    parseInt "1" = some 1 ∧
    getBottomNReposHelper "1" ([("Netflix/c", 2), ("Netflix/a", 5)] :
        List CountTuple) = HandlerResult.body [("Netflix/a", 5)] := by
  refine ⟨by decide, ?_⟩
  have h := (claim_C1_amended_bottomN_suffix
    [("Netflix/c", 2), ("Netflix/a", 5)] "1" 1 (by decide) (by decide)).1
  simpa using h

/-! ## Claims about the backoff state machine -/

/-- When the remaining header parses to 0 and the reset header parses,
`updateBackoffState` enters backoff with exactly the parsed reset time,
whatever state it starts from. -/
theorem updateBackoffState_zero (st : BackoffState) (hdrs : RateHeaders)
    (t : Int) (h0 : parseInt hdrs.remaining = some 0)
    (ht : parseInt hdrs.reset = some t) :
    updateBackoffState hdrs st = ⟨true, t⟩ := by
  simp [updateBackoffState, h0, ht]

/-- C7 as stated is false: with the backoff active at reset time 100,
processing a response whose headers report remaining `"0"` and reset
`"50"` moves `backoffResetTime` backwards, to 50. -/
theorem claim_C7_counterexample :
    (⟨true, 100⟩ : BackoffState).inBackoff = true ∧
    updateBackoffState ⟨"0", "50"⟩ ⟨true, 100⟩ = ⟨true, 50⟩ ∧
    (50 : Int) < 100 := by
  decide

/-- C7 amended: while the state is active, a processed response with
remaining = 0 and a parseable reset header sets `backoffResetTime` to
exactly the header's timestamp — later or earlier than the current value
alike (no monotonicity is enforced); responses with a non-zero or
unparseable remaining count, or an unparseable reset header, leave the
state unchanged. -/
theorem claim_C7_amended_reset_overwrite :
    ∀ (st : BackoffState) (hdrs : RateHeaders),
      (∀ t : Int, parseInt hdrs.remaining = some 0 →
        parseInt hdrs.reset = some t →
        updateBackoffState hdrs st = ⟨true, t⟩) ∧
      (parseInt hdrs.remaining = none → updateBackoffState hdrs st = st) ∧
      (∀ r : Int, parseInt hdrs.remaining = some r → r ≠ 0 →
        updateBackoffState hdrs st = st) ∧
      (parseInt hdrs.remaining = some 0 → parseInt hdrs.reset = none →
        updateBackoffState hdrs st = st) := by
  intro st hdrs
  refine ⟨fun t h0 ht => updateBackoffState_zero st hdrs t h0 ht, ?_, ?_, ?_⟩
  · intro h; simp [updateBackoffState, h]
  · intro r hr hr0; simp [updateBackoffState, hr, hr0]
  · intro h0 ht; simp [updateBackoffState, h0, ht]

/-- Witness for C7's amended theorem at the counterexample input. -/
theorem claim_C7_amended_witness :
    parseInt "0" = some 0 ∧ parseInt "50" = some 50 ∧
    updateBackoffState ⟨"0", "50"⟩ ⟨true, 100⟩ = ⟨true, 50⟩ :=
  ⟨by decide, by decide,
    (claim_C7_amended_reset_overwrite ⟨true, 100⟩ ⟨"0", "50"⟩).1 50
      (by decide) (by decide)⟩

/-- C4 as stated is false at the boundary: after a response reporting
remaining = 0 with reset time T = 100, the call attempted exactly at
time T does not proceed as a normal request — `now.After(resetTime)` is
strict, so it fails fast with the rate-limited error and no network
call. -/
theorem claim_C4_counterexample :
    updateBackoffState ⟨"0", "100"⟩ ⟨false, 0⟩ = ⟨true, 100⟩ ∧
    sendGithubApiRequest 100 ⟨true, 100⟩
        (HttpReply.reply 200 ⟨"5", "99"⟩ (some [])) =
      ⟨some ⟨none, some "Rate Limited, in backoff, try again later", 429⟩,
        ⟨true, 100⟩, false, false⟩ := by
  decide

/-- Whatever the pagination loop does, its issued-requests list extends
the accumulator it was given. -/
theorem sendPaginatedLoop_issued_extends :
    ∀ (pages : List (HttpReply (List JsonObject))) (pageNum acc st issued),
      ∃ tail, (sendPaginatedLoop pages pageNum acc st issued).issued =
        issued ++ tail := by
  intro pages
  induction pages with
  | nil => intro pageNum acc st issued; exact ⟨[], by simp [sendPaginatedLoop]⟩
  | cons p rest ih =>
    intro pageNum acc st issued
    match p with
    | HttpReply.transportErr => exact ⟨[pageNum], rfl⟩
    | HttpReply.reply status hdrs body =>
      by_cases hs : status ≠ 200
      · exact ⟨[pageNum], by simp [sendPaginatedLoop, hs]⟩
      · match body with
        | none => exact ⟨[pageNum], by simp [sendPaginatedLoop, hs]⟩
        | some items =>
          by_cases he : items.isEmpty
          · exact ⟨[pageNum], by simp [sendPaginatedLoop, hs, he]⟩
          · have hs' : status = 200 := not_ne_iff.mp hs
            subst hs'
            obtain ⟨tail, htail⟩ := ih (pageNum + 1) (acc ++ items)
              (updateBackoffState hdrs st) (issued ++ [pageNum])
            refine ⟨pageNum :: tail, ?_⟩
            have hrw : sendPaginatedLoop
                (HttpReply.reply 200 hdrs (some items) :: rest) pageNum acc
                st issued =
                sendPaginatedLoop rest (pageNum + 1) (acc ++ items)
                  (updateBackoffState hdrs st) (issued ++ [pageNum]) := by
              simp [sendPaginatedLoop, he]
            rw [hrw, htail]
            simp

/-- The pagination loop's first act on a non-empty page list is to
request the page numbered `pageNum`. -/
theorem sendPaginatedLoop_issued_head :
    ∀ (p : HttpReply (List JsonObject)) (rest) (pageNum acc st issued),
      ∃ tail, (sendPaginatedLoop (p :: rest) pageNum acc st issued).issued =
        issued ++ pageNum :: tail := by
  intro p rest pageNum acc st issued
  match p with
  | HttpReply.transportErr => exact ⟨[], rfl⟩
  | HttpReply.reply status hdrs body =>
    by_cases hs : status ≠ 200
    · exact ⟨[], by simp [sendPaginatedLoop, hs]⟩
    · match body with
      | none => exact ⟨[], by simp [sendPaginatedLoop, hs]⟩
      | some items =>
        by_cases he : items.isEmpty
        · exact ⟨[], by simp [sendPaginatedLoop, hs, he]⟩
        · have hs' : status = 200 := not_ne_iff.mp hs
          subst hs'
          have h := sendPaginatedLoop_issued_extends rest (pageNum + 1)
            (acc ++ items) (updateBackoffState hdrs st) (issued ++ [pageNum])
          obtain ⟨tail, htail⟩ := h
          refine ⟨tail, ?_⟩
          have hrw : sendPaginatedLoop
              (HttpReply.reply 200 hdrs (some items) :: rest) pageNum acc st
              issued =
              sendPaginatedLoop rest (pageNum + 1) (acc ++ items)
                (updateBackoffState hdrs st) (issued ++ [pageNum]) := by
            simp [sendPaginatedLoop, he]
          rw [hrw, htail]
          simp

/-- A client not in backoff passes its backoff check unchanged. -/
theorem shouldBackoff_inactive (now : Int) (st : BackoffState)
    (h : st.inBackoff = false) : shouldBackoff now st = (false, st) := by
  simp [shouldBackoff, h]

/-- A single request from a non-backoff state always goes out on the
network (also on the transport-error path: the request is issued before
the nil-response dereference). -/
theorem sendGithubApiRequest_inactive_call (now : Int) (st : BackoffState)
    (net : HttpReply JsonObject) (h : st.inBackoff = false) :
    (sendGithubApiRequest now st net).networkCall = true := by
  simp only [sendGithubApiRequest, shouldBackoff_inactive now st h]
  cases net with
  | transportErr => rfl
  | reply status hdrs body =>
    by_cases hs : status ≠ 200
    · simp [hs]
    · cases body <;> simp [hs]

/-- A forwarded request from a non-backoff state always goes out on the
network. -/
theorem forwardRequest_inactive_call (now : Int) (st : BackoffState)
    (fnet : HttpReply Unit) (h : st.inBackoff = false) :
    (forwardRequest now st fnet).networkCall = true := by
  simp only [forwardRequest, shouldBackoff_inactive now st h]
  cases fnet <;> simp

/-- C4 amended: after a response reporting remaining = 0 with reset time
T, every call (single, paginated, or forwarded) attempted at or before T
— including exactly at T, where `now.After(T)` is still false — fails
fast with the 429 rate-limited error and makes no network call; the
first call attempted strictly after T clears the backoff flag
(`shouldBackoff` returns the Active state), behaves exactly as a call
from the Active state, and goes out on the network. -/
theorem claim_C4_amended_backoff_window :
    ∀ (st0 : BackoffState) (rst : String) (T now : Int)
      (net : HttpReply JsonObject)
      (pages : List (HttpReply (List JsonObject))) (fnet : HttpReply Unit),
      parseInt rst = some T →
      (now ≤ T →
        sendGithubApiRequest now (updateBackoffState ⟨"0", rst⟩ st0) net =
          ⟨some ⟨none, some "Rate Limited, in backoff, try again later", 429⟩,
            ⟨true, T⟩, false, false⟩ ∧
        sendPaginatedGithubApiRequests now
            (updateBackoffState ⟨"0", rst⟩ st0) pages =
          ⟨some ⟨none, some "Rate Limited, in backoff, try again later", 429⟩,
            ⟨true, T⟩, [], false⟩ ∧
        forwardRequest now (updateBackoffState ⟨"0", rst⟩ st0) fnet =
          ⟨429, ⟨true, T⟩, false⟩) ∧
      (now > T →
        shouldBackoff now (updateBackoffState ⟨"0", rst⟩ st0) =
          (false, ⟨false, T⟩) ∧
        sendGithubApiRequest now (updateBackoffState ⟨"0", rst⟩ st0) net =
          sendGithubApiRequest now ⟨false, T⟩ net ∧
        (sendGithubApiRequest now
          (updateBackoffState ⟨"0", rst⟩ st0) net).networkCall = true ∧
        sendPaginatedGithubApiRequests now
            (updateBackoffState ⟨"0", rst⟩ st0) pages =
          sendPaginatedGithubApiRequests now ⟨false, T⟩ pages ∧
        (∀ p rest, pages = p :: rest →
          ∃ tail, (sendPaginatedGithubApiRequests now
            (updateBackoffState ⟨"0", rst⟩ st0) pages).issued = 1 :: tail) ∧
        forwardRequest now (updateBackoffState ⟨"0", rst⟩ st0) fnet =
          forwardRequest now ⟨false, T⟩ fnet ∧
        (forwardRequest now
          (updateBackoffState ⟨"0", rst⟩ st0) fnet).networkCall = true) := by
  intro st0 rst T now net pages fnet hT
  have hst : updateBackoffState ⟨"0", rst⟩ st0 = ⟨true, T⟩ :=
    updateBackoffState_zero st0 ⟨"0", rst⟩ T
      (show parseInt "0" = some 0 by decide) hT
  rw [hst]
  constructor
  · intro hle
    have hbo : shouldBackoff now ⟨true, T⟩ = (true, ⟨true, T⟩) := by
      simp [shouldBackoff, show ¬ (now > T) by omega]
    refine ⟨?_, ?_, ?_⟩
    · simp [sendGithubApiRequest, hbo]
    · simp [sendPaginatedGithubApiRequests, hbo]
    · simp [forwardRequest, hbo]
  · intro hgt
    have hbo : shouldBackoff now ⟨true, T⟩ = (false, ⟨false, T⟩) := by
      simp [shouldBackoff, show now > T from hgt]
    have hbo2 : shouldBackoff now ⟨false, T⟩ = (false, ⟨false, T⟩) :=
      shouldBackoff_inactive now ⟨false, T⟩ rfl
    have hsingle : sendGithubApiRequest now ⟨true, T⟩ net =
        sendGithubApiRequest now ⟨false, T⟩ net := by
      simp only [sendGithubApiRequest, hbo, hbo2]
    have hpag : sendPaginatedGithubApiRequests now ⟨true, T⟩ pages =
        sendPaginatedGithubApiRequests now ⟨false, T⟩ pages := by
      simp only [sendPaginatedGithubApiRequests, hbo, hbo2]
    have hfwd : forwardRequest now ⟨true, T⟩ fnet =
        forwardRequest now ⟨false, T⟩ fnet := by
      simp only [forwardRequest, hbo, hbo2]
    refine ⟨hbo, hsingle, ?_, hpag, ?_, hfwd, ?_⟩
    · rw [hsingle]
      exact sendGithubApiRequest_inactive_call now ⟨false, T⟩ net rfl
    · intro p rest hp
      subst hp
      rw [hpag]
      have h := sendPaginatedLoop_issued_head p rest 1 [] ⟨false, T⟩ []
      obtain ⟨tail, htail⟩ := h
      refine ⟨tail, ?_⟩
      simp only [sendPaginatedGithubApiRequests, hbo2]
      simpa using htail
    · rw [hfwd]
      exact forwardRequest_inactive_call now ⟨false, T⟩ fnet rfl

/-- Witness for C4's amended theorem: with reset time T = 100, a call at
time 50 fails fast, and the backoff check at time 101 clears the flag. -/
theorem claim_C4_amended_witness :
    sendGithubApiRequest 50 (updateBackoffState ⟨"0", "100"⟩ ⟨false, 0⟩)
        (HttpReply.reply 200 ⟨"5", "99"⟩ (some [])) =
      ⟨some ⟨none, some "Rate Limited, in backoff, try again later", 429⟩,
        ⟨true, 100⟩, false, false⟩ ∧
    shouldBackoff 101 (updateBackoffState ⟨"0", "100"⟩ ⟨false, 0⟩) =
      (false, ⟨false, 100⟩) :=
  ⟨((claim_C4_amended_backoff_window ⟨false, 0⟩ "100" 100 50
      (HttpReply.reply 200 ⟨"5", "99"⟩ (some [])) [] HttpReply.transportErr
      (by decide)).1 (by decide)).1,
    ((claim_C4_amended_backoff_window ⟨false, 0⟩ "100" 100 101
      (HttpReply.reply 200 ⟨"5", "99"⟩ (some [])) [] HttpReply.transportErr
      (by decide)).2 (by decide)).1⟩

/-- C6 is broken by the pagination path: the claim (and the spec) say
rate-limit headers are inspected on every response regardless of status
code, and the repository's README states that rate-limited failures put
the service into backoff.  On the single-request and forward paths the
embedded code does inspect the headers of a 403 response carrying
remaining = 0 and enters backoff — but the pagination loop checks
`resp.StatusCode != http.StatusOK` and returns before
`updateBackoffState`, so the same rate-limiting 403 page response leaves
the backoff state untouched. -/
theorem claim_C6_paginated_skips_rate_headers :
    sendPaginatedGithubApiRequests 0 ⟨false, 0⟩
        [HttpReply.reply 403 ⟨"0", "999"⟩ (some [])] =
      ⟨some ⟨none, some "Request failed", 403⟩, ⟨false, 0⟩, [1], false⟩ ∧
    (sendPaginatedGithubApiRequests 0 ⟨false, 0⟩
        [HttpReply.reply 403 ⟨"0", "999"⟩ (some [])]).state.inBackoff
      = false ∧
    (sendGithubApiRequest 0 ⟨false, 0⟩
        (HttpReply.reply 403 ⟨"0", "999"⟩ none)).state = ⟨true, 999⟩ ∧
    (forwardRequest 0 ⟨false, 0⟩
        (HttpReply.reply 403 ⟨"0", "999"⟩ (some ()))).state = ⟨true, 999⟩ := by
  decide

/-! ## Claims about hydration -/

/-- C2: for every hydration attempt — a sync-loop tick or the forced
path — a failing fetch aborts the attempt at that fetch (no later fetch
is performed), returns that fetch's status code and wrapped error,
leaves the previously installed snapshot untouched, and records the
failing status as the sync status; and the snapshot changes only when
all three fetches succeed. -/
theorem claim_C2_hydration_abort_on_fetch_failure :
    ∀ (tp : String → Int) (api : UpstreamResults) (st : CacheState),
      (∀ m s, api.members = FetchResult.err m s →
        hydrateCache tp api st.data =
          ⟨s, some ("Failed to fetch netflix organization members: " ++ m),
            st.data, ["members"]⟩ ∧
        syncTick tp st api = ⟨st.data, s⟩ ∧
        hydrateNow tp st api =
          ((s, some ("Failed to fetch netflix organization members: " ++ m)),
            ⟨st.data, s⟩)) ∧
      (∀ mem ms m s, api.members = FetchResult.ok mem ms →
        api.repos = FetchResult.err m s →
        hydrateCache tp api st.data =
          ⟨s, some ("Failed to fetch netflix organization repositories: "
              ++ m), st.data, ["members", "repos"]⟩ ∧
        syncTick tp st api = ⟨st.data, s⟩ ∧
        hydrateNow tp st api =
          ((s, some ("Failed to fetch netflix organization repositories: "
              ++ m)), ⟨st.data, s⟩)) ∧
      (∀ mem ms rep rs m s, api.members = FetchResult.ok mem ms →
        api.repos = FetchResult.ok rep rs →
        api.org = FetchResult.err m s →
        hydrateCache tp api st.data =
          ⟨s, some ("Failed to fetch netflix organization: " ++ m),
            st.data, ["members", "repos", "org"]⟩ ∧
        syncTick tp st api = ⟨st.data, s⟩ ∧
        hydrateNow tp st api =
          ((s, some ("Failed to fetch netflix organization: " ++ m)),
            ⟨st.data, s⟩)) ∧
      ((hydrateCache tp api st.data).data ≠ st.data →
        ∃ mem ms rep rs org os,
          api.members = FetchResult.ok mem ms ∧
          api.repos = FetchResult.ok rep rs ∧
          api.org = FetchResult.ok org os ∧
          (hydrateCache tp api st.data).status = 200 ∧
          (hydrateCache tp api st.data).err = none) := by
  intro tp api st
  obtain ⟨mem, rep, org⟩ := api
  refine ⟨?_, ?_, ?_, ?_⟩
  · intro m s h
    cases h
    exact ⟨rfl, rfl, rfl⟩
  · intro mem' ms m s hm h
    cases hm; cases h
    exact ⟨rfl, rfl, rfl⟩
  · intro mem' ms rep' rs m s hm hr h
    cases hm; cases hr; cases h
    exact ⟨rfl, rfl, rfl⟩
  · intro hchanged
    cases mem with
    | err m s => exact absurd rfl hchanged
    | ok mem ms =>
      cases rep with
      | err m s => exact absurd rfl hchanged
      | ok rep rs =>
        cases org with
        | err m s => exact absurd rfl hchanged
        | ok org os =>
          refine ⟨mem, ms, rep, rs, org, os, rfl, rfl, rfl, ?_, ?_⟩ <;>
            · simp only [hydrateCache] at hchanged ⊢
              cases hb : buildCacheData tp org mem rep with
              | error e => rw [hb] at hchanged; exact absurd rfl hchanged
              | ok d => rfl

/-- Witness for C2: a failing members fetch with status 502 leaves a
concrete installed snapshot unchanged and records 502. -/
theorem claim_C2_witness :
    syncTick (fun _ => 0)
        ⟨some (CacheData.mk [("login", JsonValue.str "netflix")] [] [] [] []
          [] []), 200⟩
        ⟨FetchResult.err "boom" 502, FetchResult.ok [] 200,
          FetchResult.ok [] 200⟩ =
      ⟨some (CacheData.mk [("login", JsonValue.str "netflix")] [] [] [] []
        [] []), 502⟩ :=
  ((claim_C2_hydration_abort_on_fetch_failure (fun _ => 0)
    ⟨FetchResult.err "boom" 502, FetchResult.ok [] 200, FetchResult.ok [] 200⟩
    ⟨some (CacheData.mk [("login", JsonValue.str "netflix")] [] [] [] [] []
      []), 200⟩).1 "boom" 502 rfl).2.1

/-- A hydration attempt that fails (any fetch error or decode error).
The error outcome does not depend on the previously installed snapshot,
so it is stated against the empty one. -/
def attemptFails (tp : String → Int) (api : UpstreamResults) : Prop :=
  ((hydrateCache tp api none).err).isSome = true

instance (tp : String → Int) (api : UpstreamResults) :
    Decidable (attemptFails tp api) :=
  inferInstanceAs (Decidable (((hydrateCache tp api none).err).isSome = true))

/-- The error of a hydration attempt does not depend on the previous
snapshot. -/
theorem hydrateCache_err_indep (tp : String → Int) (api : UpstreamResults)
    (old : Option CacheData) :
    (hydrateCache tp api old).err = (hydrateCache tp api none).err := by
  obtain ⟨mem, rep, org⟩ := api
  cases mem with
  | err m s => rfl
  | ok mem ms =>
    cases rep with
    | err m s => rfl
    | ok rep rs =>
      cases org with
      | err m s => rfl
      | ok org os =>
        cases hb : buildCacheData tp org mem rep <;> simp [hydrateCache, hb]

/-- A failing hydration attempt leaves the snapshot exactly as it was. -/
theorem hydrateCache_fail_data (tp : String → Int) (api : UpstreamResults)
    (old : Option CacheData)
    (h : (hydrateCache tp api old).err.isSome = true) :
    (hydrateCache tp api old).data = old := by
  obtain ⟨mem, rep, org⟩ := api
  cases mem with
  | err m s => rfl
  | ok mem ms =>
    cases rep with
    | err m s => rfl
    | ok rep rs =>
      cases org with
      | err m s => rfl
      | ok org os =>
        cases hb : buildCacheData tp org mem rep with
        | error e => simp [hydrateCache, hb]
        | ok d => simp [hydrateCache, hb] at h

/-- A run of failing attempts never installs a snapshot. -/
theorem runTicks_data_none (tp : String → Int) :
    ∀ (apis : List UpstreamResults) (st : CacheState), st.data = none →
      (∀ api ∈ apis, attemptFails tp api) →
      (runTicks tp st apis).data = none := by
  intro apis
  induction apis with
  | nil => intro st h _; simpa [runTicks] using h
  | cons api rest ih =>
    intro st h hall
    have hfail : attemptFails tp api := hall api (List.mem_cons_self _ _)
    have herr : (hydrateCache tp api st.data).err.isSome = true := by
      rw [hydrateCache_err_indep]; exact hfail
    have hdata : (hydrateCache tp api st.data).data = st.data :=
      hydrateCache_fail_data tp api st.data herr
    show (runTicks tp (syncTick tp st api) rest).data = none
    apply ih
    · have hnone : (hydrateCache tp api none).data = none :=
        hydrateCache_fail_data tp api none hfail
      simp [syncTick, h, hnone]
    · intro a ha; exact hall a (List.mem_cons_of_mem _ ha)

/-- C10: the freshly constructed cache has a nil data pointer; after any
run of hydration attempts that all fail, the pointer is still nil and
every one of the seven read operations hits the unconditional nil
dereference; and every read operation is free of that dereference
exactly under the precondition that some hydration has installed a
snapshot. -/
theorem claim_C10_reads_nil_deref_before_first_success :
    ∀ (tp : String → Int) (apis : List UpstreamResults),
      (∀ api ∈ apis, attemptFails tp api) →
      newCache.data = none ∧
      (runTicks tp newCache apis).data = none ∧
      getNetflixOrganization (runTicks tp newCache apis) =
        ReadResult.nilDeref ∧
      getNetflixOrganizationMembers (runTicks tp newCache apis) =
        ReadResult.nilDeref ∧
      getNetflixOrganizationRepos (runTicks tp newCache apis) =
        ReadResult.nilDeref ∧
      getBottomNetflixReposByForks (runTicks tp newCache apis) =
        ReadResult.nilDeref ∧
      getBottomNetflixReposByUpdateTime (runTicks tp newCache apis) =
        ReadResult.nilDeref ∧
      getBottomNetflixReposByOpenIssues (runTicks tp newCache apis) =
        ReadResult.nilDeref ∧
      getBottomNetflixReposByStars (runTicks tp newCache apis) =
        ReadResult.nilDeref ∧
      (∀ (s : CacheState) (d : CacheData), s.data = some d →
        getNetflixOrganization s ≠ ReadResult.nilDeref ∧
        getNetflixOrganizationMembers s ≠ ReadResult.nilDeref ∧
        getNetflixOrganizationRepos s ≠ ReadResult.nilDeref ∧
        getBottomNetflixReposByForks s ≠ ReadResult.nilDeref ∧
        getBottomNetflixReposByUpdateTime s ≠ ReadResult.nilDeref ∧
        getBottomNetflixReposByOpenIssues s ≠ ReadResult.nilDeref ∧
        getBottomNetflixReposByStars s ≠ ReadResult.nilDeref) := by
  intro tp apis hall
  have hnone : (runTicks tp newCache apis).data = none :=
    runTicks_data_none tp apis newCache rfl hall
  refine ⟨rfl, hnone, ?_, ?_, ?_, ?_, ?_, ?_, ?_, ?_⟩
  · simp [getNetflixOrganization, hnone]
  · simp [getNetflixOrganizationMembers, hnone]
  · simp [getNetflixOrganizationRepos, hnone]
  · simp [getBottomNetflixReposByForks, hnone]
  · simp [getBottomNetflixReposByUpdateTime, hnone]
  · simp [getBottomNetflixReposByOpenIssues, hnone]
  · simp [getBottomNetflixReposByStars, hnone]
  · intro s d hd
    refine ⟨?_, ?_, ?_, ?_, ?_, ?_, ?_⟩ <;>
      simp [getNetflixOrganization, getNetflixOrganizationMembers,
        getNetflixOrganizationRepos, getBottomNetflixReposByForks,
        getBottomNetflixReposByUpdateTime, getBottomNetflixReposByOpenIssues,
        getBottomNetflixReposByStars, hd]

/-- Witness for C10: a run of one failing attempt leaves the org read at
the nil dereference, while a state holding a snapshot reads safely. -/
theorem claim_C10_witness :
    getNetflixOrganization (runTicks (fun _ => 0) newCache
        [⟨FetchResult.err "boom" 500, FetchResult.ok [] 200,
          FetchResult.ok [] 200⟩]) = ReadResult.nilDeref ∧
    getNetflixOrganization ⟨some (CacheData.mk [] [] [] [] [] [] []), 200⟩ ≠
      ReadResult.nilDeref :=
  ⟨(claim_C10_reads_nil_deref_before_first_success (fun _ => 0)
      [⟨FetchResult.err "boom" 500, FetchResult.ok [] 200,
        FetchResult.ok [] 200⟩] (by decide)).2.2.1,
    ((claim_C10_reads_nil_deref_before_first_success (fun _ => 0)
      [⟨FetchResult.err "boom" 500, FetchResult.ok [] 200,
        FetchResult.ok [] 200⟩] (by decide)).2.2.2.2.2.2.2.2.2
      ⟨some (CacheData.mk [] [] [] [] [] [] []), 200⟩
      (CacheData.mk [] [] [] [] [] [] []) rfl).1⟩

/-! ## Claims about snapshot consistency -/

/-- If a hydration attempt ends with an installed snapshot, either it
failed and the snapshot is the old one, or all three fetches succeeded
and the snapshot is built wholesale from that one attempt's fetched
organization, members and repositories. -/
theorem hydrateCache_data_cases (tp : String → Int) (api : UpstreamResults)
    (old : Option CacheData) (d : CacheData)
    (h : (hydrateCache tp api old).data = some d) :
    old = some d ∨
      ∃ mem ms rep rs org os,
        api.members = FetchResult.ok mem ms ∧
        api.repos = FetchResult.ok rep rs ∧
        api.org = FetchResult.ok org os ∧
        buildCacheData tp org mem rep = Except.ok d := by
  obtain ⟨mem, rep, org⟩ := api
  cases mem with
  | err m s => exact Or.inl h
  | ok mem ms =>
    cases rep with
    | err m s => exact Or.inl h
    | ok rep rs =>
      cases org with
      | err m s => exact Or.inl h
      | ok org os =>
        cases hb : buildCacheData tp org mem rep with
        | error e =>
          left
          simpa [hydrateCache, hb] using h
        | ok d' =>
          right
          have hd : d' = d := by simpa [hydrateCache, hb] using h
          exact ⟨mem, ms, rep, rs, org, os, rfl, rfl, rfl, hd ▸ hb⟩

/-- Every snapshot observable after a run of hydration attempts either
was already installed at the start or originates wholly in one attempt
of the run. -/
theorem runTicks_snapshot_origin (tp : String → Int) :
    ∀ (apis : List UpstreamResults) (st : CacheState) (d : CacheData),
      (runTicks tp st apis).data = some d →
      st.data = some d ∨
        ∃ api ∈ apis, ∃ mem ms rep rs org os,
          api.members = FetchResult.ok mem ms ∧
          api.repos = FetchResult.ok rep rs ∧
          api.org = FetchResult.ok org os ∧
          buildCacheData tp org mem rep = Except.ok d := by
  intro apis
  induction apis with
  | nil => intro st d h; exact Or.inl h
  | cons api rest ih =>
    intro st d h
    rcases ih (syncTick tp st api) d h with hmid | ⟨a, ha, w⟩
    · have hmid' : (hydrateCache tp api st.data).data = some d := hmid
      rcases hydrateCache_data_cases tp api st.data d hmid' with hold | w
      · exact Or.inl hold
      · exact Or.inr ⟨api, List.mem_cons_self _ _, w⟩
    · exact Or.inr ⟨a, List.mem_cons_of_mem _ ha, w⟩

/-- C9: whenever a reader observes an installed snapshot after any run
of hydration attempts from the freshly constructed cache, that whole
snapshot — organization, members, repositories, and all four views —
was built by `buildCacheData` from the organization, members and
repositories fetched by one single attempt of the run, and every read
operation returns the corresponding projection of that one snapshot.
The single write-lock critical section of the source (cache.go lines
160-172) is embedded as the snapshot being replaced in one step, so an
interleaved reader never sees fields of two attempts mixed. -/
theorem claim_C9_snapshot_single_hydration_origin :
    ∀ (tp : String → Int) (apis : List UpstreamResults) (d : CacheData),
      (runTicks tp newCache apis).data = some d →
      (∃ api ∈ apis, ∃ mem ms rep rs org os,
        api.members = FetchResult.ok mem ms ∧
        api.repos = FetchResult.ok rep rs ∧
        api.org = FetchResult.ok org os ∧
        buildCacheData tp org mem rep = Except.ok d) ∧
      getNetflixOrganization (runTicks tp newCache apis) =
        ReadResult.ok d.netflixOrganization ∧
      getNetflixOrganizationMembers (runTicks tp newCache apis) =
        ReadResult.ok d.netflixOrganizationMembers ∧
      getNetflixOrganizationRepos (runTicks tp newCache apis) =
        ReadResult.ok d.netflixOrganizationRepos ∧
      getBottomNetflixReposByForks (runTicks tp newCache apis) =
        ReadResult.ok d.viewBottomNetflixReposByForks ∧
      getBottomNetflixReposByUpdateTime (runTicks tp newCache apis) =
        ReadResult.ok d.viewBottomNetflixReposByUpdateTime ∧
      getBottomNetflixReposByOpenIssues (runTicks tp newCache apis) =
        ReadResult.ok d.viewBottomNetflixReposByOpenIssues ∧
      getBottomNetflixReposByStars (runTicks tp newCache apis) =
        ReadResult.ok d.viewBottomNetflixReposByStars := by
  intro tp apis d h
  rcases runTicks_snapshot_origin tp apis newCache d h with hstart | horigin
  · exact absurd hstart (by simp [newCache])
  · refine ⟨horigin, ?_, ?_, ?_, ?_, ?_, ?_, ?_⟩ <;>
      simp [getNetflixOrganization, getNetflixOrganizationMembers,
        getNetflixOrganizationRepos, getBottomNetflixReposByForks,
        getBottomNetflixReposByUpdateTime, getBottomNetflixReposByOpenIssues,
        getBottomNetflixReposByStars, h]

/-- Witness for C9: one successful hydration of an empty organization
with no repositories installs exactly the snapshot built from that
attempt. -/
theorem claim_C9_witness :
    (runTicks (fun _ => 0) newCache
        [⟨FetchResult.ok [] 200, FetchResult.ok [] 200,
          FetchResult.ok [("login", JsonValue.str "netflix")] 200⟩]).data =
      some (CacheData.mk [("login", JsonValue.str "netflix")] [] [] [] [] []
        []) ∧
    getNetflixOrganization (runTicks (fun _ => 0) newCache
        [⟨FetchResult.ok [] 200, FetchResult.ok [] 200,
          FetchResult.ok [("login", JsonValue.str "netflix")] 200⟩]) =
      ReadResult.ok [("login", JsonValue.str "netflix")] :=
  ⟨by decide,
    (claim_C9_snapshot_single_hydration_origin (fun _ => 0)
      [⟨FetchResult.ok [] 200, FetchResult.ok [] 200,
        FetchResult.ok [("login", JsonValue.str "netflix")] 200⟩]
      (CacheData.mk [("login", JsonValue.str "netflix")] [] [] [] [] [] [])
      (by decide)).2.1⟩

/-! ## Claims about pagination -/

/-- A successful page response: status 200 with a decoded item list. -/
def goodPage (h : RateHeaders) (items : List JsonObject) :
    HttpReply (List JsonObject) :=
  HttpReply.reply 200 h (some items)

/-- A page failure the source returns as an error: a non-200 status, or
a body that fails to read/unmarshal.  A transport-level failure is
deliberately NOT here: the source does not return an error for it — it
panics on the nil response (see `sendPaginatedLoop_transport_panic`). -/
def pageFails : HttpReply (List JsonObject) → Prop
  | HttpReply.transportErr => False
  | HttpReply.reply status _ body => status ≠ 200 ∨ body = none

/-- Running the pagination loop across a block of successful non-empty
pages consumes them in order: items are appended in page order, the page
counter advances by one per page, the headers of each page update the
backoff state in order, and the pages `k, k+1, …` are requested. -/
theorem sendPaginatedLoop_good_chain :
    ∀ (gs : List (RateHeaders × List JsonObject))
      (rest : List (HttpReply (List JsonObject)))
      (k : Nat) (acc : List JsonObject) (st : BackoffState)
      (issued : List Nat),
      (∀ g ∈ gs, g.2 ≠ []) →
      sendPaginatedLoop (gs.map (fun g => goodPage g.1 g.2) ++ rest) k acc st
          issued =
        sendPaginatedLoop rest (k + gs.length)
          (acc ++ (gs.map Prod.snd).flatten)
          (gs.foldl (fun s g => updateBackoffState g.1 s) st)
          (issued ++ List.range' k gs.length) := by
  intro gs
  induction gs with
  | nil => intro rest k acc st issued _; simp
  | cons g gs ih =>
    intro rest k acc st issued hne
    have hg : g.2 ≠ [] := hne g (List.mem_cons_self _ _)
    have hgs : ∀ x ∈ gs, x.2 ≠ [] := fun x hx =>
      hne x (List.mem_cons_of_mem _ hx)
    have hempty : g.2.isEmpty = false := by
      cases hgg : g.2 with
      | nil => exact absurd hgg hg
      | cons a l => rfl
    have hstep : sendPaginatedLoop
        (goodPage g.1 g.2 :: (gs.map (fun x => goodPage x.1 x.2) ++ rest)) k
        acc st issued =
        sendPaginatedLoop (gs.map (fun x => goodPage x.1 x.2) ++ rest) (k + 1)
          (acc ++ g.2) (updateBackoffState g.1 st) (issued ++ [k]) := by
      simp [sendPaginatedLoop, goodPage, hempty]
    rw [List.map_cons, List.cons_append, hstep,
      ih rest (k + 1) (acc ++ g.2) (updateBackoffState g.1 st)
        (issued ++ [k]) hgs]
    have e1 : k + 1 + gs.length = k + (g :: gs).length := by
      simp [List.length_cons]; omega
    have e2 : (acc ++ g.2) ++ (gs.map Prod.snd).flatten =
        acc ++ ((g :: gs).map Prod.snd).flatten := by
      simp [List.append_assoc]
    have e4 : (issued ++ [k]) ++ List.range' (k + 1) gs.length =
        issued ++ List.range' k (g :: gs).length := by
      rw [List.append_assoc, List.length_cons, List.range'_succ]
      rfl
    rw [e1, e2, e4]
    rfl

/-- The pagination loop aborts on an error-returning failing page at its
head: no items are returned, an error and its status are, and only that
one page was requested from this point on. -/
theorem sendPaginatedLoop_fail_head :
    ∀ (p : HttpReply (List JsonObject)) (rest) (k acc st issued),
      pageFails p →
      ∃ msg stat st', sendPaginatedLoop (p :: rest) k acc st issued =
        ⟨some ⟨none, some msg, stat⟩, st', issued ++ [k], false⟩ := by
  intro p rest k acc st issued hp
  match p with
  | HttpReply.transportErr => exact hp.elim
  | HttpReply.reply status hdrs body =>
    have hp' : status ≠ 200 ∨ body = none := hp
    by_cases hs : status ≠ 200
    · exact ⟨"Request failed", status, st, by simp [sendPaginatedLoop, hs]⟩
    · have hs' : status = 200 := not_ne_iff.mp hs
      subst hs'
      have hb : body = none := by
        rcases hp' with h | h
        · exact absurd rfl h
        · exact h
      subst hb
      exact ⟨"error unmarshalling JSON", 500, updateBackoffState hdrs st,
        by simp [sendPaginatedLoop]⟩

/-- A transport-failing page at the loop's head is the source's nil
response: `resp.StatusCode` is dereferenced on the nil `resp`
(github-client.go lines 96-98) and the call panics — it returns nothing,
neither items nor an error. -/
theorem sendPaginatedLoop_transport_panic
    (rest : List (HttpReply (List JsonObject))) (k : Nat)
    (acc : List JsonObject) (st : BackoffState) (issued : List Nat) :
    sendPaginatedLoop (HttpReply.transportErr :: rest) k acc st issued =
      ⟨none, st, issued ++ [k], true⟩ := rfl

/-- C5, settled against the faithful embedding: for every paginated
fetch from an Active client, pages are requested starting at page 1
with the page number incremented each iteration, results are
concatenated in order, and the fetch stops at the first zero-item page
— three successful pages of sizes [100, 100, 37] followed by an empty
page yield exactly 237 items with pages 1,2,3,4 requested, and a first
page of size 0 yields an empty list with no error.  A failing page that
the source handles — non-200 status or an undecodable body — aborts the
whole call with an error and no partial item list.  But the claim's
"any single page fails ⇒ the whole call returns an error" is wrong for
a transport-level failure: there the source dereferences the nil
response and panics, returning nothing at all (the last conjunct, the
failing input of the code bug). -/
theorem claim_C5_pagination_flattening :
    ∀ (now : Int) (st : BackoffState), st.inBackoff = false →
      (∀ (h1 h2 h3 h4 : RateHeaders) (xs ys zs : List JsonObject),
        xs.length = 100 → ys.length = 100 → zs.length = 37 →
        ∃ st', sendPaginatedGithubApiRequests now st
            [goodPage h1 xs, goodPage h2 ys, goodPage h3 zs, goodPage h4 []] =
          ⟨some ⟨some (xs ++ ys ++ zs), none, 200⟩, st', [1, 2, 3, 4],
            false⟩ ∧
          (xs ++ ys ++ zs).length = 237) ∧
      (∀ h1 : RateHeaders, ∃ st',
        sendPaginatedGithubApiRequests now st [goodPage h1 []] =
          ⟨some ⟨some [], none, 200⟩, st', [1], false⟩) ∧
      (∀ (gs : List (RateHeaders × List JsonObject))
          (bad : HttpReply (List JsonObject))
          (rest : List (HttpReply (List JsonObject))),
        (∀ g ∈ gs, g.2 ≠ []) → pageFails bad →
        ∃ msg stat st', sendPaginatedGithubApiRequests now st
            (gs.map (fun g => goodPage g.1 g.2) ++ bad :: rest) =
          ⟨some ⟨none, some msg, stat⟩, st',
            List.range' 1 (gs.length + 1), false⟩) ∧
      (∀ (gs : List (RateHeaders × List JsonObject))
          (rest : List (HttpReply (List JsonObject))),
        (∀ g ∈ gs, g.2 ≠ []) →
        ∃ st', sendPaginatedGithubApiRequests now st
            (gs.map (fun g => goodPage g.1 g.2) ++
              HttpReply.transportErr :: rest) =
          ⟨none, st', List.range' 1 (gs.length + 1), true⟩) := by
  intro now st hst
  have hbo : shouldBackoff now st = (false, st) :=
    shouldBackoff_inactive now st hst
  refine ⟨?_, ?_, ?_, ?_⟩
  · intro h1 h2 h3 h4 xs ys zs hx hy hz
    have hne : ∀ g ∈ [(h1, xs), (h2, ys), (h3, zs)], g.2 ≠ [] := by
      intro g hg
      have hxne : xs ≠ [] := by
        intro hh; rw [hh] at hx; simp at hx
      have hyne : ys ≠ [] := by
        intro hh; rw [hh] at hy; simp at hy
      have hzne : zs ≠ [] := by
        intro hh; rw [hh] at hz; simp at hz
      simp only [List.mem_cons, List.not_mem_nil, or_false] at hg
      rcases hg with rfl | rfl | rfl <;> simp_all
    have hlist : [goodPage h1 xs, goodPage h2 ys, goodPage h3 zs,
        goodPage h4 []] =
        ([(h1, xs), (h2, ys), (h3, zs)].map fun g => goodPage g.1 g.2) ++
          [goodPage h4 []] := rfl
    refine ⟨updateBackoffState h4
      ([(h1, xs), (h2, ys), (h3, zs)].foldl
        (fun s g => updateBackoffState g.1 s) st), ?_, ?_⟩
    · simp only [sendPaginatedGithubApiRequests, hbo]
      rw [hlist, sendPaginatedLoop_good_chain _ _ 1 [] st [] hne]
      simp [sendPaginatedLoop, goodPage, List.range']
    · simp [hx, hy, hz]
  · intro h1
    refine ⟨updateBackoffState h1 st, ?_⟩
    simp only [sendPaginatedGithubApiRequests, hbo]
    simp [sendPaginatedLoop, goodPage]
  · intro gs bad rest hne hbad
    obtain ⟨msg, stat, st', hfail⟩ :=
      sendPaginatedLoop_fail_head bad rest (1 + gs.length)
        ([] ++ (gs.map Prod.snd).flatten)
        (gs.foldl (fun s g => updateBackoffState g.1 s) st)
        ([] ++ List.range' 1 gs.length) hbad
    refine ⟨msg, stat, st', ?_⟩
    simp only [sendPaginatedGithubApiRequests, hbo]
    rw [sendPaginatedLoop_good_chain gs (bad :: rest) 1 [] st [] hne, hfail]
    simp [List.range'_1_concat]
  · intro gs rest hne
    refine ⟨gs.foldl (fun s g => updateBackoffState g.1 s) st, ?_⟩
    simp only [sendPaginatedGithubApiRequests, hbo]
    rw [sendPaginatedLoop_good_chain gs (HttpReply.transportErr :: rest) 1 []
      st [] hne, sendPaginatedLoop_transport_panic]
    simp [List.range'_1_concat]

/-- Witness for C5: pages of sizes [100, 100, 37] and then an empty page
flatten to exactly 237 items with pages 1,2,3,4 requested; and the
failing input of the bug — a transport failure on page 1 — panics
instead of returning an error. -/
theorem claim_C5_witness :
    (∃ st', sendPaginatedGithubApiRequests 0 ⟨false, 0⟩
        [goodPage ⟨"50", "0"⟩ (List.replicate 100 []),
          goodPage ⟨"49", "0"⟩ (List.replicate 100 []),
          goodPage ⟨"48", "0"⟩ (List.replicate 37 []),
          goodPage ⟨"47", "0"⟩ []] =
      ⟨some ⟨some (List.replicate 100 [] ++ List.replicate 100 [] ++
          List.replicate 37 []), none, 200⟩, st', [1, 2, 3, 4], false⟩ ∧
      ((List.replicate 100 ([] : JsonObject) ++ List.replicate 100 [] ++
        List.replicate 37 []).length = 237)) ∧
    (∃ st', sendPaginatedGithubApiRequests 0 ⟨false, 0⟩
        [HttpReply.transportErr] = ⟨none, st', [1], true⟩) :=
  ⟨(claim_C5_pagination_flattening 0 ⟨false, 0⟩ rfl).1
    ⟨"50", "0"⟩ ⟨"49", "0"⟩ ⟨"48", "0"⟩ ⟨"47", "0"⟩
    (List.replicate 100 []) (List.replicate 100 []) (List.replicate 37 [])
    (by simp) (by simp) (by simp),
    (claim_C5_pagination_flattening 0 ⟨false, 0⟩ rfl).2.2.2 [] []
      (by simp)⟩
